import Mathlib

/-!
Shallow embedding of the multi-source pipe-run extraction pipeline from
`app/vision/vector_extract.py`, `app/vision/ocr_extract.py` and
`app/vision/text_based_extract.py`.

Text is modelled as `List Char`; the specific regular expressions used by the
code (`LENGTH_RE`, `DIAMETER_RE`, `MATERIAL_RE`, `SLOPE_RE`, the inline repair
substitutions and the diameter-derivation searches in `_aggregate_pipes`) are
implemented as deterministic left-to-right scanners that reproduce Python's
leftmost-match backtracking semantics for these particular patterns.
Floating-point lengths and diameters are modelled as rationals.  External
collaborators (PyMuPDF page spans, pdf2image and pytesseract output, the
rank_bm25 scorer) are passed in as explicit parameters.
-/

/-- ASCII digit test, matching `\d` on the ASCII inputs handled here. -/
def isDigitC (c : Char) : Bool := '0' ≤ c && c ≤ '9'

/-- Python `\s` for the whitespace characters that occur in these strings. -/
def isSpaceC (c : Char) : Bool :=
  c = ' ' || c = '\t' || c = '\n' || c = '\r' || c = '\x0b' || c = '\x0c'

/-- ASCII letter test. -/
def isLetterC (c : Char) : Bool := ('A' ≤ c && c ≤ 'Z') || ('a' ≤ c && c ≤ 'z')

/-- Python `\w` (word character) on ASCII input. -/
def isWordC (c : Char) : Bool := isLetterC c || isDigitC c || c = '_'

/-- Uppercase a string, as Python `str.upper()` does on the ASCII part. -/
def upperS (s : String) : String := String.mk (s.data.map Char.toUpper)

/-- Lowercase a string, as Python `str.lower()` does on the ASCII part. -/
def lowerS (s : String) : String := String.mk (s.data.map Char.toLower)

/-- Does `hay` start with `needle` (exact characters)? -/
def startsWithL : List Char → List Char → Bool
  | [], _ => true
  | _ :: _, [] => false
  | a :: as, b :: bs => a = b && startsWithL as bs

/-- Python substring containment `needle in hay`. -/
def containsL : List Char → List Char → Bool
  | n, [] => n.isEmpty
  | n, c :: rest => startsWithL n (c :: rest) || containsL n rest

/-- Numeric value of a digit character. -/
def digitVal (c : Char) : Nat := c.toNat - '0'.toNat

/-- Value of a digit run, most significant digit first. -/
def natOfDigits (ds : List Char) : Nat := ds.foldl (fun acc c => acc * 10 + digitVal c) 0

/-- Rational value of a digit run. -/
def qOfDigits (ds : List Char) : ℚ := (natOfDigits ds : ℚ)

/-- Value of `ds.fs` where `ds` is the integer digit run and `fs` the
fractional digit run (possibly empty), as Python `float()` parses it. -/
def parseNumQ (ds fs : List Char) : ℚ :=
  (natOfDigits ds : ℚ) + (natOfDigits fs : ℚ) / ((10 : ℚ) ^ fs.length)

/-- Python `str.split()`: split on whitespace runs, dropping empty pieces.
Fuel-driven so the recursion is structural; the fuel is always at least the
list length, which makes it behave exactly like the unbounded split. -/
def wordsGo : Nat → List Char → List (List Char)
  | 0, _ => []
  | _ + 1, [] => []
  | fuel + 1, c :: rest =>
    if isSpaceC c then wordsGo fuel rest
    else (c :: rest.takeWhile (fun x => !isSpaceC x)) ::
      wordsGo fuel (rest.dropWhile (fun x => !isSpaceC x))

/-- Python `str.split()` on a character list. -/
def wordsL (l : List Char) : List (List Char) := wordsGo l.length l

/-- Join word lists with single spaces, as `" ".join(...)`. -/
def joinSp : List (List Char) → List Char
  | [] => []
  | [w] => w
  | w :: ws => w ++ ' ' :: joinSp ws

/-- Whitespace normalization `" ".join(s.split())`. -/
def normSpace (s : String) : String := String.mk (joinSp (wordsL s.data))

/-- Python truthiness of `l.strip()`: some non-whitespace character exists. -/
def hasNonWs (l : List Char) : Bool := l.any (fun c => !isSpaceC c)

/-- Match `\s*[Ll][Ff]\b` at the head; returns the matched text and the rest.
This is the tail of `LENGTH_RE` after the numeric part. -/
def lfAfter (l : List Char) : Option (List Char × List Char) :=
  let sp := l.takeWhile isSpaceC
  match l.dropWhile isSpaceC with
  | a :: b :: rest =>
    if (a = 'L' || a = 'l') && (b = 'F' || b = 'f') then
      match rest with
      | [] => some (sp ++ [a, b], [])
      | c :: _ => if isWordC c then none else some (sp ++ [a, b], rest)
    else none
  | _ => none

/-- Try `LENGTH_RE = (\d+(?:\.\d+)?)\s*LF\b` (case-insensitive) anchored at the
head of the list.  Greedy digit runs are forced here because a shorter run
leaves a digit where a space or `L` is required, so no further backtracking can
succeed; the greedy optional fraction is tried first, then skipped. -/
def lengthAt (l : List Char) : Option (ℚ × List Char) :=
  let ds := l.takeWhile isDigitC
  if ds.isEmpty then none else
  let r1 := l.dropWhile isDigitC
  let fracTry : Option (ℚ × List Char) :=
    match r1 with
    | '.' :: r2 =>
      let fs := r2.takeWhile isDigitC
      if fs.isEmpty then none else
      match lfAfter (r2.dropWhile isDigitC) with
      | some (m, _) => some (parseNumQ ds fs, ds ++ '.' :: (fs ++ m))
      | none => none
    | _ => none
  match fracTry with
  | some res => some res
  | none =>
    match lfAfter r1 with
    | some (m, _) => some (parseNumQ ds [], ds ++ m)
    | none => none

/-- Leftmost search for `LENGTH_RE`; returns the parsed value and the whole
matched text (`group(0)`). -/
def lengthSearch : List Char → Option (ℚ × List Char)
  | [] => none
  | c :: rest =>
    match lengthAt (c :: rest) with
    | some r => some r
    | none => lengthSearch rest

/-- Try the OCR fallback pattern `(\d+)\s*LF` (case-sensitive, no boundary)
anchored at the head; returns the digit run (`group(1)`). -/
def numLfAt (l : List Char) : Option (List Char) :=
  let ds := l.takeWhile isDigitC
  if ds.isEmpty then none else
  match (l.dropWhile isDigitC).dropWhile isSpaceC with
  | 'L' :: 'F' :: _ => some ds
  | _ => none

/-- Leftmost search for `(\d+)\s*LF`. -/
def numLfSearch : List Char → Option (List Char)
  | [] => none
  | c :: rest =>
    match numLfAt (c :: rest) with
    | some ds => some ds
    | none => numLfSearch rest

/-- One-digit attempt of `(\d{1,2})\s*<quote>` with leading digit `c`. -/
def diaOne (quotes : List Char) (c : Char) (rest : List Char) : Option (ℚ × List Char) :=
  let sp := rest.takeWhile isSpaceC
  match rest.dropWhile isSpaceC with
  | q :: _ => if quotes.contains q then some (qOfDigits [c], c :: (sp ++ [q])) else none
  | [] => none

/-- Two-digit attempt of `(\d{1,2})\s*<quote>` with leading digits `c d`. -/
def diaTwo (quotes : List Char) (c d : Char) (rest2 : List Char) : Option (ℚ × List Char) :=
  let sp := rest2.takeWhile isSpaceC
  match rest2.dropWhile isSpaceC with
  | q :: _ => if quotes.contains q then some (qOfDigits [c, d], c :: d :: (sp ++ [q])) else none
  | [] => none

/-- Try `DIAMETER_RE = (\d{1,2})\s*<quote>` anchored at the head: the greedy
two-digit capture is attempted first, then one digit, exactly as the regex
engine backtracks. -/
def diaAt (quotes : List Char) : List Char → Option (ℚ × List Char)
  | [] => none
  | c :: rest =>
    if isDigitC c then
      match rest with
      | d :: rest2 =>
        if isDigitC d then
          match diaTwo quotes c d rest2 with
          | some r => some r
          | none => diaOne quotes c rest
        else diaOne quotes c rest
      | [] => diaOne quotes c rest
    else none

/-- Leftmost search for `DIAMETER_RE`; returns the value and `group(0)`. -/
def diaSearch (quotes : List Char) : List Char → Option (ℚ × List Char)
  | [] => none
  | c :: rest =>
    match diaAt quotes (c :: rest) with
    | some r => some r
    | none => diaSearch quotes rest

/-- Quote glyphs accepted by the OCR module's `DIAMETER_RE`. -/
def ocrQuotes : List Char := ['\"']

/-- Quote glyphs accepted by the vector module's `DIAMETER_RE`. -/
def vecQuotes : List Char := ['\"', '”', '″', '“']

/-- Quote glyphs accepted by the raw-text diameter searches in
`_aggregate_pipes`. -/
def aggQuotes : List Char := ['\"', '”', '″']

/-- Try `LF[^\d]{0,6}(\d{1,2})\s*(?:"|”|″)` (case-insensitive) anchored at the
head.  The bounded non-digit run is forced to its maximal length, because a
shorter run leaves a non-digit where a digit is required. -/
def nearLfAt : List Char → Option ℚ
  | a :: b :: rest =>
    if (a = 'L' || a = 'l') && (b = 'F' || b = 'f') then
      let nd := rest.takeWhile (fun c => !isDigitC c)
      if nd.length ≤ 6 then
        match diaAt aggQuotes (rest.dropWhile (fun c => !isDigitC c)) with
        | some (v, _) => some v
        | none => none
      else none
    else none
  | _ => none

/-- Leftmost search for the near-LF diameter pattern of `_aggregate_pipes`. -/
def nearLfSearch : List Char → Option ℚ
  | [] => none
  | c :: rest =>
    match nearLfAt (c :: rest) with
    | some v => some v
    | none => nearLfSearch rest

/-- Leftmost search for `(\d{1,2})`: the first digit run, truncated to two
digits, as used on `diameter_text` in `_aggregate_pipes`. -/
def firstTwoDigits : List Char → Option ℚ
  | [] => none
  | c :: rest =>
    if isDigitC c then
      match rest with
      | d :: _ => if isDigitC d then some (qOfDigits [c, d]) else some (qOfDigits [c])
      | [] => some (qOfDigits [c])
    else firstTwoDigits rest

/-- Try `SLOPE_RE = @\s*(\d+(?:\.\d+)?)%` anchored at the head; returns
`group(0)`. -/
def slopeAt : List Char → Option (List Char)
  | '@' :: r =>
    let sp := r.takeWhile isSpaceC
    let r1 := r.dropWhile isSpaceC
    let ds := r1.takeWhile isDigitC
    if ds.isEmpty then none else
    match r1.dropWhile isDigitC with
    | '.' :: r3 =>
      let fs := r3.takeWhile isDigitC
      if fs.isEmpty then none else
      (match r3.dropWhile isDigitC with
       | '%' :: _ => some ('@' :: (sp ++ ds ++ '.' :: (fs ++ ['%'])))
       | _ => none)
    | '%' :: _ => some ('@' :: (sp ++ ds ++ ['%']))
    | _ => none
  | _ => none

/-- Leftmost search for `SLOPE_RE`. -/
def slopeSearch : List Char → Option (List Char)
  | [] => none
  | c :: rest =>
    match slopeAt (c :: rest) with
    | some g => some g
    | none => slopeSearch rest

/-- Character class `[0-9iIlLoO]` of the OCR repair patterns. -/
def cls1 (c : Char) : Bool :=
  isDigitC c || c = 'i' || c = 'I' || c = 'l' || c = 'L' || c = 'o' || c = 'O'

/-- First character of the `(LF|1F|IF)` alternatives, case-insensitive. -/
def lf1 (c : Char) : Bool := c = 'L' || c = 'l' || c = '1' || c = 'I' || c = 'i'

/-- Case-insensitive `F`. -/
def isF (c : Char) : Bool := c = 'F' || c = 'f'

/-- Try the first repair pattern
`([0-9iIlLoO]{2,})(LF|1F|IF)([^A-Z]|$)` (case-insensitive) anchored at the
head.  Backtracking analysis: the second group's first character lies in the
class, and `F` does not, so the only consistent split puts the unit marker on
the last class character of the maximal run plus the following `F`; `group(1)`
is the run without its last character and needs at least two characters.
Returns the replacement text `group(1) ++ " LF " ++ group(3)` and the rest of
the input after the match. -/
def try1 (l : List Char) : Option (List Char × List Char) :=
  let run := l.takeWhile cls1
  if run.length < 3 then none else
  match l.drop run.length with
  | f :: rest =>
    if isF f && lf1 (run.getLastD ' ') then
      match rest with
      | [] => some (run.dropLast ++ [' ', 'L', 'F', ' '], [])
      | c :: rest2 =>
        if isLetterC c then none
        else some (run.dropLast ++ [' ', 'L', 'F', ' '] ++ [c], rest2)
    else none
  | [] => none

/-- Global replacement driver for `try1`, with fuel bounded by the input
length (each step consumes at least one character, so the fuel never runs
out and this equals Python's `re.sub`). -/
def sub1Go : Nat → List Char → List Char
  | 0, l => l
  | _ + 1, [] => []
  | fuel + 1, c :: rest =>
    match try1 (c :: rest) with
    | some (repl, rem) => repl ++ sub1Go fuel rem
    | none => c :: sub1Go fuel rest

/-- First OCR repair: re-insert a space between a glued numeric run and the
`LF` marker. -/
def sub1 (l : List Char) : List Char := sub1Go l.length l

/-- Try the second repair pattern `LF[_\s]*(\d+)"` anchored at the head;
returns the replacement `LF \1"` and the rest. -/
def try2 (l : List Char) : Option (List Char × List Char) :=
  match l with
  | 'L' :: 'F' :: rest =>
    let us := rest.takeWhile (fun c => c = '_' || isSpaceC c)
    let r1 := rest.drop us.length
    let ds := r1.takeWhile isDigitC
    if ds.isEmpty then none else
    match r1.drop ds.length with
    | '\"' :: rest2 => some ('L' :: 'F' :: ' ' :: (ds ++ ['\"']), rest2)
    | _ => none
  | _ => none

/-- Global replacement driver for `try2`. -/
def sub2Go : Nat → List Char → List Char
  | 0, l => l
  | _ + 1, [] => []
  | fuel + 1, c :: rest =>
    match try2 (c :: rest) with
    | some (repl, rem) => repl ++ sub2Go fuel rem
    | none => c :: sub2Go fuel rest

/-- Second OCR repair: detach a diameter glued to the `LF` marker. -/
def sub2 (l : List Char) : List Char := sub2Go l.length l

/-- Letter-for-digit substitutions of `fix_ocr_digits`. -/
def fixDigit (c : Char) : Char :=
  if c = 'i' || c = 'I' || c = 'l' || c = 'L' then '1'
  else if c = 'o' || c = 'O' then '0'
  else c

/-- Try the third repair pattern `([0-9iIlLoO]{2,})\s+LF` anchored at the
head; returns the replacement `fixed ++ " LF"` and the rest. -/
def try3 (l : List Char) : Option (List Char × List Char) :=
  let run := l.takeWhile cls1
  if run.length < 2 then none else
  let r1 := l.drop run.length
  let sp := r1.takeWhile isSpaceC
  if sp.isEmpty then none else
  match r1.drop sp.length with
  | 'L' :: 'F' :: rest2 => some (run.map fixDigit ++ [' ', 'L', 'F'], rest2)
  | _ => none

/-- Global replacement driver for `try3`. -/
def sub3Go : Nat → List Char → List Char
  | 0, l => l
  | _ + 1, [] => []
  | fuel + 1, c :: rest =>
    match try3 (c :: rest) with
    | some (repl, rem) => repl ++ sub3Go fuel rem
    | none => c :: sub3Go fuel rest

/-- Third OCR repair: substitute letter/digit confusions in a numeric run
standing before the `LF` marker. -/
def sub3 (l : List Char) : List Char := sub3Go l.length l

/-- Full OCR line normalization of `ocr_profile_runs_strict_segments`:
uppercase, then the three repair substitutions in source order. -/
def ocrNormalize (line : String) : String :=
  String.mk (sub3 (sub2 (sub1 ((upperS line).data))))

/-- Empty string constant. -/
def emptyStr : String := ""

/-- Token `LF`. -/
def lfTok : List Char := ['L', 'F']

/-- Token `DIP`. -/
def dipTok : List Char := ['D', 'I', 'P']

/-- Token `PVC`. -/
def pvcTok : List Char := ['P', 'V', 'C']

/-- Token `D.I.P`. -/
def dIPdotTok : List Char := ['D', '.', 'I', '.', 'P']

/-- Token `D.1.P`. -/
def d1PdotTok : List Char := ['D', '.', '1', '.', 'P']

/-- Token `DUCTILE`. -/
def ductileTok : List Char := ['D', 'U', 'C', 'T', 'I', 'L', 'E']

/-- Token `IRON`. -/
def ironTok : List Char := ['I', 'R', 'O', 'N']

/-- Token `SIP`. -/
def sipTok : List Char := ['S', 'I', 'P']

/-- Token `DI`. -/
def diTok : List Char := ['D', 'I']

/-- Token `PIPE`. -/
def pipeTok : List Char := ['P', 'I', 'P', 'E']

/-- Token `PNY`. -/
def pnyTok : List Char := ['P', 'N', 'Y']

/-- Token `RCP`. -/
def rcpTok : List Char := ['R', 'C', 'P']

/-- Token `HDPE`. -/
def hdpeTok : List Char := ['H', 'D', 'P', 'E']

/-- Canonical material string `DIP`. -/
def dipStr : String := String.mk dipTok

/-- Canonical material string `PVC`. -/
def pvcStr : String := String.mk pvcTok

/-- Canonical material string `RCP`. -/
def rcpStr : String := String.mk rcpTok

/-- Canonical material string `HDPE`. -/
def hdpeStr : String := String.mk hdpeTok

/-- Output material default `Unknown`. -/
def unknownStr : String := String.mk ['U', 'n', 'k', 'n', 'o', 'w', 'n']

/-- Source tag `vector`. -/
def vectorStr : String := String.mk ['v', 'e', 'c', 't', 'o', 'r']

/-- Source tag `ocr`. -/
def ocrStr : String := String.mk ['o', 'c', 'r']

/-- Source tag `merged`. -/
def mergedStr : String := String.mk ['m', 'e', 'r', 'g', 'e', 'd']

/-- Source tag `none`. -/
def noneStr : String := String.mk ['n', 'o', 'n', 'e']

/-- Case-insensitive character comparison. -/
def eqCI (a b : Char) : Bool := Char.toUpper a = Char.toUpper b

/-- Does the text start with the (uppercase) pattern, case-insensitively? -/
def startsCI : List Char → List Char → Bool
  | [], _ => true
  | _ :: _, [] => false
  | p :: ps, t :: ts => eqCI p t && startsCI ps ts

/-- Case-insensitive literal match at the head; returns the matched original
text and the rest. -/
def litCI (pat t : List Char) : Option (List Char × List Char) :=
  if startsCI pat t then some (t.take pat.length, t.drop pat.length) else none

/-- Word boundary `\b` after a match that ends in a word character: the next
character must be absent or a non-word character. -/
def bAfterWord (rest : List Char) : Bool :=
  match rest with
  | [] => true
  | c :: _ => !isWordC c

/-- Word boundary `\b` after a match that ends in a dot: the next character
must be a word character. -/
def bAfterDot (rest : List Char) : Bool :=
  match rest with
  | [] => false
  | c :: _ => isWordC c

/-- Alternative of `MATERIAL_RE` that is a plain word (`PVC`, `DIP`, `RCP`,
`HDPE`, `PNY`): literal match plus trailing boundary. -/
def matPlain (pat t : List Char) : Option (List Char) :=
  match litCI pat t with
  | some (m, r) => if bAfterWord r then some m else none
  | none => none

/-- Alternative of `MATERIAL_RE` with an optional trailing dot
(`D\.I\.P\.?`, `D\.1\.P\.?`): the greedy engine first takes the dot (the
boundary then requires a following word character), else leaves it. -/
def matDotted (pat t : List Char) : Option (List Char) :=
  match litCI pat t with
  | some (m, r) =>
    (match r with
     | '.' :: r2 =>
       if bAfterDot r2 then some (m ++ ['.'])
       else if bAfterWord r then some m else none
     | _ => if bAfterWord r then some m else none)
  | none => none

/-- Alternative `DUCTILE\s*IRON` of `MATERIAL_RE`. -/
def matDuctile (t : List Char) : Option (List Char) :=
  match litCI ductileTok t with
  | some (m1, r1) =>
    let sp := r1.takeWhile isSpaceC
    (match litCI ironTok (r1.dropWhile isSpaceC) with
     | some (m2, r2) => if bAfterWord r2 then some (m1 ++ sp ++ m2) else none
     | none => none)
  | none => none

/-- Try the vector module's
`MATERIAL_RE = \b(PVC|DIP|D\.I\.P\.?|D\.1\.P\.?|DUCTILE\s*IRON|RCP|HDPE|PNY)\b`
anchored at the head (the leading boundary is checked by the caller),
alternatives in source order; returns `group(1)`. -/
def matAt (t : List Char) : Option (List Char) :=
  matPlain pvcTok t <|> matPlain dipTok t <|> matDotted dIPdotTok t <|>
    matDotted d1PdotTok t <|> matDuctile t <|> matPlain rcpTok t <|>
    matPlain hdpeTok t <|> matPlain pnyTok t

/-- Leftmost search for `MATERIAL_RE`, tracking the previous character for the
leading `\b` (every alternative starts with a word character, so the boundary
holds exactly when the previous character is absent or non-word). -/
def matSearchGo : Option Char → List Char → Option (List Char)
  | _, [] => none
  | prev, c :: rest =>
    let bOk := match prev with | none => true | some p => !isWordC p
    if bOk then
      match matAt (c :: rest) with
      | some m => some m
      | none => matSearchGo (some c) rest
    else matSearchGo (some c) rest

/-- Leftmost search for the vector module's `MATERIAL_RE`. -/
def matSearch (t : List Char) : Option (List Char) := matSearchGo none t

/-- DIP alias set of the vector `_normalize_material` (after stripping
punctuation, spaces and hyphens and uppercasing). -/
def dipVariants : List String :=
  ["DIP", "DUCTILEIRON", "DUCTILEIRONPIPE", "D1P", "D|P", "DIPPIPE", "SIP", "DI", "DIPP"]

/-- PVC alias set of the vector `_normalize_material`. -/
def pvcVariants : List String := ["PVC", "PNY", "PVC,", "PVC=", "PVG", "PYC"]

/-- RCP alias set of the vector `_normalize_material`. -/
def rcpVariants : List String := ["RCP", "RCPP"]

/-- Strip `.`, ` ` and `-`, as the chained `replace` calls do. -/
def stripPunct (t : List Char) : List Char :=
  t.filter (fun c => !(c = '.' || c = ' ' || c = '-'))

/-- The vector module's `_normalize_material`: `None` for an empty token,
otherwise map the cleaned uppercased token through the alias tables, falling
back to the uppercased original token. -/
def normalizeMaterialV (tok : List Char) : Option String :=
  if tok.isEmpty then none else
  let t := String.mk ((stripPunct tok).map Char.toUpper)
  if dipVariants.contains t then some dipStr
  else if pvcVariants.contains t then some pvcStr
  else if rcpVariants.contains t then some rcpStr
  else if t = hdpeStr then some hdpeStr
  else some (String.mk (tok.map Char.toUpper))

/-- Python `abs` on rationals. -/
def pyAbs (q : ℚ) : ℚ := if q < 0 then -q else q

/-- Candidate run produced by `ocr_profile_runs_strict_segments` (the dict
with keys `raw`, `length_text`, `length_ft`, `diameter_text`, `material`,
`slope_text`). -/
structure OcrRun where
  raw : String
  length_text : Option String
  length_ft : Option ℚ
  diameter_text : Option String
  material : Option String
  slope_text : Option String
deriving DecidableEq

/-- Candidate run produced by `extract_profile_runs_from_text` (the
`VectorRun` dataclass). -/
structure VectorRun where
  raw : String
  length_text : Option String
  length_ft : Option ℚ
  diameter_text : Option String
  material : Option String
  slope_text : Option String
  bbox : ℚ × ℚ × ℚ × ℚ
deriving DecidableEq

/-- Combined length match of the OCR path: `LENGTH_RE` first, then the
manual `(\d+)\s*LF` fallback wrapped in the `MockMatch` shim, whose
`group(0)` is the f-string `"<digits> LF"`. -/
structure LenM where
  val : ℚ
  text0 : List Char
deriving DecidableEq

/-- Length recognition of the OCR strict path on a repaired line. -/
def ocrLenOf (norm : List Char) : Option LenM :=
  match lengthSearch norm with
  | some (v, g0) => some ⟨v, g0⟩
  | none =>
    match numLfSearch norm with
    | some ds => some ⟨parseNumQ ds [], ds ++ ' ' :: lfTok⟩
    | none => none

/-- Material cue of the OCR strict path (direct scan), source order:
`DIP`, `D.I.P`, `D.1.P`, `DUCTILE`, `SIP`, `IRON`, `DI` with (`PIPE` or
`IRON`) give DIP; else `PVC` or `PNY` give PVC. -/
def ocrMatCue (norm : List Char) : Option String :=
  if containsL dipTok norm || containsL dIPdotTok norm || containsL d1PdotTok norm ||
      containsL ductileTok norm || containsL sipTok norm || containsL ironTok norm ||
      (containsL diTok norm && (containsL pipeTok norm || containsL ironTok norm)) then
    some dipStr
  else if containsL pvcTok norm || containsL pnyTok norm then some pvcStr
  else none

/-- Per-line recognition of `ocr_profile_runs_strict_segments` (direct scan):
normalize and repair the line, require the `LF` marker, recognize length,
diameter and material, and reject the line unless a length and at least one
of diameter or material are present. -/
def ocrLineToRun (line : String) : Option OcrRun :=
  let norm := (ocrNormalize line).data
  if containsL lfTok norm then
    match ocrLenOf norm with
    | none => none
    | some lm =>
      let mdia := diaSearch ocrQuotes norm
      let mat := ocrMatCue norm
      if mdia.isSome || mat.isSome then
        some { raw := line, length_text := some (String.mk lm.text0),
               length_ft := some lm.val,
               diameter_text := mdia.map (fun p => String.mk p.2),
               material := mat,
               slope_text := (slopeSearch norm).map String.mk }
      else none
  else none

/-- Direct scanning pass over the reconstructed OCR lines. -/
def ocrDirectRuns (lines : List String) : List OcrRun := lines.filterMap ocrLineToRun

/-- Line clean-up `[" ".join(l.split()) for l in text.splitlines() if l.strip()]`. -/
def normLines (rawLines : List String) : List String :=
  rawLines.filterMap (fun l => if hasNonWs l.data then some (normSpace l) else none)

/-- Material cue of the BM25 re-parse branch:
`any(x in norm for x in [DIP, D.I.P, DI, DUCTILE, IRON, SIP])` gives DIP,
else `PVC` or `PNY` give PVC. -/
def bmMatCue (norm : List Char) : Option String :=
  if containsL dipTok norm || containsL dIPdotTok norm || containsL diTok norm ||
      containsL ductileTok norm || containsL ironTok norm || containsL sipTok norm then
    some dipStr
  else if containsL pvcTok norm || containsL pnyTok norm then some pvcStr
  else none

/-- Re-parse of a BM25 candidate line (same repairs, then length, diameter
and the broader material cue; accepted only with a length and a diameter or
a DIP material; the stored material defaults to DIP when null). -/
def bmReparse (candidate_line : String) : Option OcrRun :=
  let norm := (ocrNormalize candidate_line).data
  if containsL lfTok norm then
    match ocrLenOf norm with
    | none => none
    | some lm =>
      let mdia := diaSearch ocrQuotes norm
      let mat := bmMatCue norm
      if mdia.isSome || mat = some dipStr then
        some { raw := candidate_line, length_text := some (String.mk lm.text0),
               length_ft := some lm.val,
               diameter_text := mdia.map (fun p => String.mk p.2),
               material := some (match mat with | some m => m | none => dipStr),
               slope_text := (slopeSearch norm).map String.mk }
      else none
  else none

/-- First index of the maximum score, as `numpy.argmax` (strict comparison
keeps the earlier index on ties). -/
def argmaxGo : List ℚ → Nat → Nat → ℚ → Nat
  | [], _, bi, _ => bi
  | x :: rest, i, bi, bv =>
    if bv < x then argmaxGo rest (i + 1) i x else argmaxGo rest (i + 1) bi bv

/-- First index of the maximum of a score list (0 for an empty list). -/
def argmaxIdx : List ℚ → Nat
  | [] => 0
  | x :: rest => argmaxGo rest 1 0 x

/-- One BM25 query step: take the single top-scoring line, use it only if
its score clears the `0.5` threshold, re-parse it, and append the result
only if no already-collected run has a length within 5 units. -/
def bmQueryStep (lines : List String) (scores : List ℚ) (runs : List OcrRun) : List OcrRun :=
  let top := argmaxIdx scores
  if (1 : ℚ) / 2 < scores.getD top 0 then
    match bmReparse (lines.getD top emptyStr) with
    | some run =>
      if runs.all (fun r => !(pyAbs (r.length_ft.getD 0 - run.length_ft.getD 0) < 5)) then
        runs ++ [run]
      else runs
    | none => runs
  else runs

/-- The fixed recovery queries of the BM25 branch. -/
def dipQueries : List String :=
  ["26 lf 8 dip", "151 lf 8 dip", "8 dip 26", "8 dip 151",
   "26 lf ductile", "151 lf ductile", "26 lf 8", "151 lf 8"]

/-- Query tokenization `query.lower().split()`. -/
def tokenizeQ (q : String) : List String := (wordsL (lowerS q).data).map String.mk

/-- The OCR strict extraction on the text of one rasterized page, as a
function of the reconstructed raw lines and of the BM25 scorer (an oracle for
`BM25Okapi(tokenized_lines).get_scores`): direct scan per line, then the
BM25-assisted recovery gated on fewer than 3 runs and more than 5 lines. -/
def ocrStrictFromLines (rawLines : List String) (scorer : List String → List ℚ) : List OcrRun :=
  let lines := normLines rawLines
  let runs := ocrDirectRuns lines
  if runs.length < 3 ∧ 5 < lines.length then
    if lines.isEmpty then runs
    else dipQueries.foldl (fun rs q => bmQueryStep lines (scorer (tokenizeQ q)) rs) runs
  else runs

/-- A text block of the page as returned by `_page_text_spans` (PyMuPDF is
external; the span list is the model's input). -/
structure Span where
  bbox : ℚ × ℚ × ℚ × ℚ
  text : String
deriving DecidableEq

/-- Secondary DIP indicator of the vector path, checked on the uppercased
text when neither `DIAMETER_RE` nor `MATERIAL_RE` matched:
`DUCTILE` with `IRON`, or a `D.I.P` / `D.1.P` / `SIP` substring. -/
def vecDipCue (u : List Char) : Bool :=
  (containsL ductileTok u && containsL ironTok u) || containsL dIPdotTok u ||
    containsL d1PdotTok u || containsL sipTok u

/-- Per-span recognition of `extract_profile_runs_from_text`: collapse
whitespace, require a length token, require a diameter or material token or
the secondary DIP indicator, then build the `VectorRun` (material from
`MATERIAL_RE` via `_normalize_material`, else from the DIP cues, else null). -/
def vectorRunFromSpan (s : Span) : Option VectorRun :=
  let text := normSpace s.text
  let t := text.data
  match lengthSearch t with
  | none => none
  | some (lv, lg0) =>
    let mdia := diaSearch vecQuotes t
    let mmat := matSearch t
    let u := (upperS text).data
    if mdia.isSome || mmat.isSome || vecDipCue u then
      let material0 := match mmat with | some tok => normalizeMaterialV tok | none => none
      let material := match material0 with
        | some m => some m
        | none =>
          if containsL ductileTok u && containsL ironTok u then some dipStr
          else if containsL dIPdotTok u || containsL d1PdotTok u || containsL sipTok u then
            some dipStr
          else none
      some { raw := text, length_text := some (String.mk lg0), length_ft := some lv,
             diameter_text := mdia.map (fun p => String.mk p.2), material := material,
             slope_text := (slopeSearch t).map String.mk, bbox := s.bbox }
    else none

/-- The vector extraction on the spans of one page. -/
def extractProfileRunsFromSpans (spans : List Span) : List VectorRun :=
  spans.filterMap vectorRunFromSpan

/-- Python truthiness of an optional string (`None` and `""` are falsy). -/
def truthyS : Option String → Bool
  | none => false
  | some s => !(s == emptyStr)

/-- Python truthiness of an optional number (`None` and `0` are falsy). -/
def truthyQ : Option ℚ → Bool
  | none => false
  | some q => !(q == 0)

/-- Duplicate condition of the cross-DPI OCR dedup in `extract_sewer_pipes`
(evaluated after the length tolerance): materials equal, or either null. -/
def dedupDupCond (em mat : Option String) : Bool :=
  em == mat || em = none || mat = none

/-- Scan of the `unique_runs` list for one incoming OCR run with length `l`
and material `mat`: the first existing entry with a non-null length within
tolerance 1 and a compatible material absorbs the run (promoting a known
material onto a null one); `some updated` means a duplicate was found and
`updated` is the list after any promotion, `none` means no duplicate. -/
def dedupScan (l : ℚ) (mat : Option String) : List OcrRun → Option (List OcrRun)
  | [] => none
  | e :: es =>
    match e.length_ft with
    | none => (dedupScan l mat es).map (fun r => e :: r)
    | some el =>
      if pyAbs (el - l) < 1 ∧ dedupDupCond e.material mat = true then
        (if e.material = none ∧ truthyS mat = true then
          some ({ e with material := mat } :: es)
         else some (e :: es))
      else (dedupScan l mat es).map (fun r => e :: r)

/-- Cross-DPI deduplication of OCR runs (lines 90-111 of
`text_based_extract.py`): drop runs with a null length, absorb runs that
`dedupScan` finds duplicated, append the rest. -/
def ocrDedup (runs : List OcrRun) : List OcrRun :=
  runs.foldl (fun acc run =>
    match run.length_ft with
    | none => acc
    | some l =>
      match dedupScan l run.material acc with
      | some updated => updated
      | none => acc ++ [run]) []

/-- Merged run dict of `_merge_runs` (keys `length_ft`, `diameter_text`,
`material`, `raw`, `source`). -/
structure MRun where
  length_ft : Option ℚ
  diameter_text : Option String
  material : Option String
  raw : Option String
  source : String
deriving DecidableEq

/-- Dict view of a vector run, as `_merge_runs` builds it. -/
def vecToM (v : VectorRun) : MRun :=
  { length_ft := v.length_ft, diameter_text := v.diameter_text, material := v.material,
    raw := some v.raw, source := vectorStr }

/-- Dict view of an OCR run appended by `_merge_runs` (or passed through on
the OCR-only path). -/
def ocrToM (r : OcrRun) : MRun :=
  { length_ft := r.length_ft, diameter_text := r.diameter_text, material := r.material,
    raw := some r.raw, source := ocrStr }

/-- The `materials_match` predicate of `_merge_runs`. -/
def materialsMatch (om mm : Option String) : Bool :=
  om == mm || (om = none && mm = none)

/-- Duplicate condition of the cross-source merge (evaluated after the
length tolerance): `materials_match`, or either material null. -/
def mergeDupCond (om mm : Option String) : Bool :=
  materialsMatch om mm || om = none || mm = none

/-- Scan of the merged list for one OCR candidate with length `ol` and
material `om`: the first entry with a non-null length within tolerance 2 and
a compatible material absorbs it, promoting a truthy OCR material onto a
null existing one. -/
def mergeScan (ol : ℚ) (om : Option String) : List MRun → Option (List MRun)
  | [] => none
  | e :: es =>
    match e.length_ft with
    | none => (mergeScan ol om es).map (fun r => e :: r)
    | some ml =>
      if pyAbs (ol - ml) < 2 ∧ mergeDupCond om e.material = true then
        (if e.material = none ∧ truthyS om = true then
          some ({ e with material := om } :: es)
         else some (e :: es))
      else (mergeScan ol om es).map (fun r => e :: r)

/-- `_merge_runs`: start from all vector runs, then add each OCR run with a
truthy length unless `mergeScan` finds it duplicated. -/
def mergeRuns (vector_runs : List VectorRun) (ocr_runs : List OcrRun) : List MRun :=
  ocr_runs.foldl (fun merged o =>
    if truthyQ o.length_ft = true then
      match mergeScan (o.length_ft.getD 0) o.material merged with
      | some updated => updated
      | none => merged ++ [ocrToM o]
    else merged) (vector_runs.map vecToM)

/-- Aggregated pipe record of `_aggregate_pipes` output (keys `diameter_in`,
`material`, `length_ft`, `count`, `source`; the material is written as
`material or "Unknown"`, so it is always a string in the output). -/
structure Pipe where
  diameter_in : Option ℚ
  material : String
  length_ft : ℚ
  count : Nat
  source : String
deriving DecidableEq

/-- Raw diameter derivation of `_aggregate_pipes`, before the sanity ceiling:
first a diameter token near the `LF` marker in the raw text, then the first
digits of `diameter_text`, then a raw-text-wide diameter token. -/
def deriveDiameterRaw (m : MRun) : Option ℚ :=
  let rawT := match m.raw with | none => emptyStr | some s => s
  let d0 := if rawT == emptyStr then none else nearLfSearch rawT.data
  let d1 := match d0 with
    | some d => some d
    | none =>
      if truthyS m.diameter_text then firstTwoDigits (m.diameter_text.getD emptyStr).data
      else none
  match d1 with
  | some d => some d
  | none => if rawT == emptyStr then none else (diaSearch aggQuotes rawT.data).map Prod.fst

/-- Derived diameter after the ceiling: any value above 60 is discarded as an
OCR artifact and treated as null. -/
def deriveDiameter (m : MRun) : Option ℚ :=
  match deriveDiameterRaw m with
  | some d => if 60 < d then none else some d
  | none => none

/-- Grouping key of `_aggregate_pipes`: the derived diameter and the run's
material, nulls included. -/
abbrev GKey := Option ℚ × Option String

/-- Grouping key of a run. -/
def aggKey (m : MRun) : GKey := (deriveDiameter m, m.material)

/-- Insert a run into the insertion-ordered group list: append to the first
group with the same key, else append a new group at the end (Python dict
insertion order). -/
def upsert (k : GKey) (m : MRun) : List (GKey × List MRun) → List (GKey × List MRun)
  | [] => [(k, [m])]
  | (k2, rs) :: rest =>
    if k2 = k then (k2, rs ++ [m]) :: rest else (k2, rs) :: upsert k m rest

/-- One grouping step of `_aggregate_pipes`: runs with a falsy `length_ft`
are skipped, the rest are placed under their key. -/
def aggStep (g : List (GKey × List MRun)) (m : MRun) : List (GKey × List MRun) :=
  if truthyQ m.length_ft = true then upsert (aggKey m) m g else g

/-- The grouping loop of `_aggregate_pipes`. -/
def buildGroups (runs : List MRun) : List (GKey × List MRun) :=
  runs.foldl aggStep []

/-- Total length of a group, `sum(r.get("length_ft", 0) for r in group_runs)`. -/
def groupTotal (rs : List MRun) : ℚ := (rs.map (fun r => r.length_ft.getD 0)).sum

/-- Render one group as an output pipe (`material or "Unknown"`). -/
def pipeOfGroup (source : String) (kg : GKey × List MRun) : Pipe :=
  { diameter_in := kg.1.1,
    material := match kg.1.2 with
      | none => unknownStr
      | some s => if s == emptyStr then unknownStr else s,
    length_ft := groupTotal kg.2, count := kg.2.length, source := source }

/-- `_aggregate_pipes` on a list of run dicts. -/
def aggregatePipes (runs : List MRun) (source : String) : List Pipe :=
  (buildGroups runs).map (pipeOfGroup source)

/-- A run object as `_aggregate_pipes` dynamically receives it: either a
`VectorRun` dataclass (which has no `.get` method) or a run dict. -/
inductive PyRunObj where
  | vecObj (v : VectorRun)
  | dictObj (m : MRun)
deriving DecidableEq

/-- Dynamic field access of the aggregation loop: `run.get("length_ft")` on
a `VectorRun` dataclass raises `AttributeError`. -/
def attrErrStr : String :=
  String.mk ['A', 't', 't', 'r', 'i', 'b', 'u', 't', 'e', 'E', 'r', 'r', 'o', 'r']

/-- Interpret the dynamically-typed run list: the loop works through dicts
and raises on the first dataclass. -/
def asDicts : List PyRunObj → Except String (List MRun)
  | [] => .ok []
  | .vecObj _ :: _ => .error attrErrStr
  | .dictObj m :: rest => (asDicts rest).map (fun l => m :: l)

/-- `_aggregate_pipes` as called by `extract_sewer_pipes`, on the
dynamically-typed `merged_runs` list. -/
def aggregatePipesDyn (runs : List PyRunObj) (source : String) : Except String (List Pipe) :=
  (asDicts runs).map (fun ms => aggregatePipes ms source)

/-- Run projection used for the `vector_runs` / `ocr_runs` fields of the
result dictionary. -/
structure RunOut where
  length_ft : Option ℚ
  diameter_text : Option String
  material : Option String
  raw : Option String
deriving DecidableEq

/-- Projection of a `VectorRun` for the output dictionary. -/
def vOut (r : VectorRun) : RunOut :=
  { length_ft := r.length_ft, diameter_text := r.diameter_text,
    material := r.material, raw := some r.raw }

/-- Projection of an OCR run for the output dictionary. -/
def oOut (r : OcrRun) : RunOut :=
  { length_ft := r.length_ft, diameter_text := r.diameter_text,
    material := r.material, raw := some r.raw }

/-- Result dictionary of `extract_sewer_pipes`. -/
structure ExtractOutput where
  pipes : List Pipe
  vector_runs : List RunOut
  ocr_runs : List RunOut
  source : String
deriving DecidableEq

/-- Build the result dictionary. -/
def mkOutput (pipes : List Pipe) (vr : List VectorRun) (ors : List OcrRun)
    (src : String) : ExtractOutput :=
  { pipes := pipes, vector_runs := vr.map vOut, ocr_runs := ors.map oOut, source := src }

/-- The empty result returned when neither source produced runs. -/
def emptyOutput : ExtractOutput :=
  { pipes := [], vector_runs := [], ocr_runs := [], source := noneStr }

/-- The per-DPI OCR loop of `extract_sewer_pipes`: each attempt either
returns runs (extended onto the accumulator) or raises (logged and skipped). -/
def perDpiCollect (ocrAtDpi : List (Except String (List OcrRun))) : List OcrRun :=
  ocrAtDpi.foldl (fun acc r => match r with | .ok rs => acc ++ rs | .error _ => acc) []

/-- `extract_sewer_pipes` as a function of the vector-extraction outcome
(`fitz.open` may raise, uncaught) and the per-DPI OCR outcomes (exceptions
caught per DPI): OCR runs only when the vector count is below the threshold,
multi-DPI results are deduplicated, and the merged/vector-only/OCR-only/none
branches follow the source.  The vector-only branch hands `VectorRun`
dataclasses to the aggregation. -/
def extractSewerPipes (vec : Except String (List VectorRun))
    (ocrAtDpi : List (Except String (List OcrRun))) (minRuns : Nat) :
    Except String ExtractOutput :=
  match vec with
  | .error e => .error e
  | .ok vector_runs =>
    let ocr_raw := if vector_runs.length < minRuns then perDpiCollect ocrAtDpi else []
    let ocr_runs := if ocr_raw.isEmpty then ocr_raw else ocrDedup ocr_raw
    if vector_runs ≠ [] ∧ ocr_runs ≠ [] then
      (aggregatePipesDyn ((mergeRuns vector_runs ocr_runs).map PyRunObj.dictObj)
        mergedStr).map (fun pipes => mkOutput pipes vector_runs ocr_runs mergedStr)
    else if vector_runs ≠ [] then
      (aggregatePipesDyn (vector_runs.map PyRunObj.vecObj) vectorStr).map
        (fun pipes => mkOutput pipes vector_runs ocr_runs vectorStr)
    else if ocr_runs ≠ [] then
      (aggregatePipesDyn ((ocr_runs.map ocrToM).map PyRunObj.dictObj) ocrStr).map
        (fun pipes => mkOutput pipes vector_runs ocr_runs ocrStr)
    else .ok emptyOutput

/-- Well-formedness of a candidate run as the specification's data model
defines it: a non-null length and a non-null diameter or material.  This
definition follows the spec's words (it is the comparison point for the
aggregation-soundness claim); the code itself only filters on a truthy
length. -/
def specWellFormed (m : MRun) : Bool :=
  m.length_ft.isSome && (m.diameter_text.isSome || m.material.isSome)

/-- DIP-cue list exactly as the line-rejection claim words it: co-occurrence
of `DUCTILE` and `IRON`, or an `SIP` / `D.I.P` literal anywhere in the
line.  This definition follows the claim's words, for comparison with the
broader cues the code actually uses. -/
def claimDipCue (u : List Char) : Bool :=
  (containsL ductileTok u && containsL ironTok u) || containsL sipTok u ||
    containsL dIPdotTok u

/-- Scenario line of the OCR-repair claim. -/
def c8Line : String := "215Lf 8\" DIP"

/-- Substitution-step line of the OCR-repair claim. -/
def c8bLine : String := "2l5 LF"

/-- A line with a length token and no diameter, material or DIP cue. -/
def fortyLine : String := "40 LF"

/-- A span carrying only a length token. -/
def span40 : Span := { bbox := (0, 0, 0, 0), text := fortyLine }

/-- An OCR line whose only material evidence is the substring `IRON`. -/
def c6Line : String := "40 LF IRON"

/-- An OCR line containing both `PVC` and `IRON`. -/
def c10wLine : String := "46 LF PVC IRON"

/-- OCR run with length 100 and material PVC. -/
def runPvc100 : OcrRun :=
  { raw := emptyStr, length_text := none, length_ft := some 100,
    diameter_text := none, material := some pvcStr, slope_text := none }

/-- OCR run with length 100.5 and material DIP. -/
def runDipHalf : OcrRun :=
  { raw := emptyStr, length_text := none, length_ft := some (201 / 2),
    diameter_text := none, material := some dipStr, slope_text := none }

/-- OCR run with length 100.2 and a null material. -/
def runNoMat : OcrRun :=
  { raw := emptyStr, length_text := none, length_ft := some (501 / 5),
    diameter_text := none, material := none, slope_text := none }

/-- Vector run with length 150 and a null material (Scenario 3). -/
def vec150 : VectorRun :=
  { raw := emptyStr, length_text := none, length_ft := some 150,
    diameter_text := none, material := none, slope_text := none, bbox := (0, 0, 0, 0) }

/-- OCR run with length 150.5 and material PVC (Scenario 3). -/
def ocr1505 : OcrRun :=
  { raw := emptyStr, length_text := none, length_ft := some (301 / 2),
    diameter_text := none, material := some pvcStr, slope_text := none }

/-- Run dict whose `diameter_text` carries the spurious diameter 88. -/
def r88 : MRun :=
  { length_ft := some 120, diameter_text := some (String.mk ['8', '8', '\"']),
    material := some pvcStr, raw := none, source := ocrStr }

/-- Run dict with a null material and no diameter evidence. -/
def rNullMat : MRun :=
  { length_ft := some 100, diameter_text := none, material := none,
    raw := none, source := ocrStr }

/-- Run dict with material PVC and no diameter evidence. -/
def rPvcHalf : MRun :=
  { length_ft := some 50, diameter_text := none, material := some pvcStr,
    raw := none, source := ocrStr }

/-- Well-formed run dict: 100 feet of 8-inch PVC. -/
def mA : MRun :=
  { length_ft := some 100, diameter_text := some (String.mk ['8', '\"']),
    material := some pvcStr, raw := none, source := mergedStr }

/-- Well-formed run dict: 50 feet of 8-inch PVC. -/
def mB : MRun :=
  { length_ft := some 50, diameter_text := some (String.mk ['8', '\"']),
    material := some pvcStr, raw := none, source := mergedStr }

/-- OCR run as the per-DPI loop may deliver it: 215 feet of 8-inch PVC. -/
def oRun215 : OcrRun :=
  { raw := String.mk ('2' :: '1' :: '5' :: ' ' :: 'L' :: 'F' :: ' ' :: '8' :: '\"' :: ' ' :: pvcTok),
    length_text := some (String.mk ['2', '1', '5', ' ', 'L', 'F']),
    length_ft := some 215, diameter_text := some (String.mk ['8', '\"']),
    material := some pvcStr, slope_text := none }

/-- Generic per-DPI failure message. -/
def dpiErrStr : String := String.mk ['b', 'o', 'o', 'm']

/-- Failure message of an unopenable PDF. -/
def pdfErrStr : String := String.mk ['n', 'o', 'p', 'd', 'f']

/-- Empty OCR page. -/
def noLines : List String := []

/-- Scorer oracle returning no scores. -/
def zeroScorer : List String → List ℚ := fun _ => []

deriving instance DecidableEq for Except

/-- Expected candidate for the repaired scenario line. -/
def c8Run : OcrRun :=
  { raw := c8Line, length_text := some (String.mk ['2', '1', '5', ' ', 'L', 'F']),
    length_ft := some 215, diameter_text := some (String.mk ['8', '\"']),
    material := some dipStr, slope_text := none }

/-- Expected merged entry for Scenario 3: the vector length is kept, the OCR
material is promoted. -/
def merged150 : MRun :=
  { length_ft := some 150, diameter_text := none, material := some pvcStr,
    raw := some emptyStr, source := vectorStr }

/-- Expected output pipe for the spurious-diameter run: grouped under a null
diameter. -/
def pipe88 : Pipe :=
  { diameter_in := none, material := pvcStr, length_ft := 120, count := 1, source := ocrStr }

/-- Expected output pipe for the null-material group: the material is the
string `Unknown`. -/
def pipeUnknown100 : Pipe :=
  { diameter_in := none, material := unknownStr, length_ft := 100, count := 1,
    source := ocrStr }

/-- Expected output pipe for the PVC group next to the null-material group. -/
def pipePvc50 : Pipe :=
  { diameter_in := none, material := pvcStr, length_ft := 50, count := 1, source := ocrStr }

/-- Expected output pipe aggregated from `oRun215`. -/
def pipe215 : Pipe :=
  { diameter_in := some 8, material := pvcStr, length_ft := 215, count := 1, source := ocrStr }

/-- Sum of all group totals. -/
def groupsTotal (g : List (GKey × List MRun)) : ℚ :=
  (g.map (fun kg => groupTotal kg.2)).sum

/-- Sum of `length_ft` over an output pipe list. -/
def pipesTotal (ps : List Pipe) : ℚ := (ps.map Pipe.length_ft).sum

/-- Sum of `length_ft.getD 0` over a run list. -/
def runsTotal (runs : List MRun) : ℚ :=
  (runs.map (fun r => r.length_ft.getD 0)).sum

/-- Expected output pipe aggregated from the well-formed run `mA`. -/
def pipeA8 : Pipe :=
  { diameter_in := some 8, material := pvcStr, length_ft := 100, count := 1,
    source := mergedStr }

/-- A line without any `LF` marker. -/
def noMarkerLine : String := String.mk ('P' :: 'V' :: 'C' :: ' ' :: 'O' :: 'N' :: 'L' :: 'Y' :: [])

/-- The repaired form `215 LF` of the substitution-step scenario. -/
def repairedStr : String := String.mk ['2', '1', '5', ' ', 'L', 'F']

/-- Expected result of promoting PVC onto the null-material run `runNoMat`. -/
def runNoMatPromoted : OcrRun := { runNoMat with material := some pvcStr }

theorem truthyQ_false_getD {l : Option ℚ} (h : truthyQ l = false) : l.getD 0 = 0 := by
  cases l with
  | none => rfl
  | some q =>
    simp only [truthyQ, Bool.not_eq_false', beq_iff_eq] at h
    simpa using h

theorem groupsTotal_upsert (k : GKey) (m : MRun) (g : List (GKey × List MRun)) :
    groupsTotal (upsert k m g) = groupsTotal g + m.length_ft.getD 0 := by
  induction g with
  | nil => simp [upsert, groupsTotal, groupTotal]
  | cons kg rest ih =>
    obtain ⟨k2, rs⟩ := kg
    by_cases h : k2 = k
    · simp [upsert, h, groupsTotal, groupTotal]
      ring
    · simp only [upsert, if_neg h, groupsTotal, List.map_cons, List.sum_cons] at ih ⊢
      rw [ih]
      ring

theorem groupsTotal_foldl (runs : List MRun) (g : List (GKey × List MRun)) :
    groupsTotal (List.foldl aggStep g runs) = groupsTotal g + runsTotal runs := by
  induction runs generalizing g with
  | nil => simp [runsTotal]
  | cons r rest ih =>
    rw [List.foldl_cons, ih]
    simp only [runsTotal, List.map_cons, List.sum_cons]
    unfold aggStep
    by_cases h : truthyQ r.length_ft = true
    · rw [if_pos h, groupsTotal_upsert]
      ring
    · rw [if_neg h, truthyQ_false_getD (Bool.eq_false_iff.mpr h)]
      ring

theorem pipesTotal_aggregate (runs : List MRun) (src : String) :
    pipesTotal (aggregatePipes runs src) = groupsTotal (buildGroups runs) := by
  unfold pipesTotal aggregatePipes groupsTotal
  rw [List.map_map]
  rfl

theorem deriveDiameter_le {m : MRun} {d : ℚ} (h : deriveDiameter m = some d) : d ≤ 60 := by
  unfold deriveDiameter at h
  split at h
  next d0 _ =>
    split at h
    · exact absurd h (by simp)
    next h60 =>
      cases h
      exact le_of_not_lt h60
  next => exact absurd h (by simp)

theorem mem_upsert_bound (k : GKey) (m : MRun) (g : List (GKey × List MRun))
    (hm : ∀ d : ℚ, k.1 = some d → d ≤ 60)
    (hg : ∀ kg ∈ g, ∀ d : ℚ, kg.1.1 = some d → d ≤ 60) :
    ∀ kg ∈ upsert k m g, ∀ d : ℚ, kg.1.1 = some d → d ≤ 60 := by
  induction g with
  | nil =>
    intro kg hkg d hd
    simp only [upsert, List.mem_singleton] at hkg
    subst hkg
    exact hm d hd
  | cons kg0 rest ih =>
    obtain ⟨k2, rs⟩ := kg0
    intro kg hkg d hd
    by_cases h : k2 = k
    · simp only [upsert, if_pos h, List.mem_cons] at hkg
      rcases hkg with h1 | h2
      · subst h1
        exact hg (k2, rs) (List.mem_cons_self _ _) d hd
      · exact hg kg (List.mem_cons_of_mem _ h2) d hd
    · simp only [upsert, if_neg h, List.mem_cons] at hkg
      rcases hkg with h1 | h2
      · subst h1
        exact hg (k2, rs) (List.mem_cons_self _ _) d hd
      · exact ih (fun kg' hkg' => hg kg' (List.mem_cons_of_mem _ hkg')) kg h2 d hd

theorem buildGroups_bound (runs : List MRun) (g : List (GKey × List MRun))
    (hg : ∀ kg ∈ g, ∀ d : ℚ, kg.1.1 = some d → d ≤ 60) :
    ∀ kg ∈ List.foldl aggStep g runs, ∀ d : ℚ, kg.1.1 = some d → d ≤ 60 := by
  induction runs generalizing g with
  | nil => simpa using hg
  | cons r rest ih =>
    rw [List.foldl_cons]
    refine ih _ ?_
    unfold aggStep
    by_cases h : truthyQ r.length_ft = true
    · rw [if_pos h]
      exact mem_upsert_bound _ _ _ (fun d hd => deriveDiameter_le hd) hg
    · rw [if_neg h]
      exact hg

/-- C1: Aggregation soundness — for any run list given to the aggregator, the
sum of the output groups' total lengths equals the sum of the runs'
`length_ft` values (each surviving run is counted in exactly one
(diameter, material) group, and no length is lost or duplicated across
groups); in particular, on a list of well-formed candidate runs — the
aggregator's domain, since malformed candidates are discarded before the
Reconciler — it equals the sum of `length_ft` over the well-formed
candidates. -/
theorem C1_aggregation_soundness :
    (∀ (runs : List MRun) (src : String),
      pipesTotal (aggregatePipes runs src) = runsTotal runs)
    ∧ (∀ (runs : List MRun) (src : String), (∀ r ∈ runs, specWellFormed r = true) →
        pipesTotal (aggregatePipes runs src) =
          ((runs.filter (fun r => specWellFormed r)).map (fun r => r.length_ft.getD 0)).sum) := by
  have key : ∀ (runs : List MRun) (src : String),
      pipesTotal (aggregatePipes runs src) = runsTotal runs := by
    intro runs src
    rw [pipesTotal_aggregate]
    unfold buildGroups
    rw [groupsTotal_foldl]
    simp [groupsTotal]
  refine ⟨key, ?_⟩
  intro runs src hwf
  rw [key runs src, List.filter_eq_self.mpr hwf]
  rfl

/-- Witness for C1: two 8-inch PVC runs of 100 and 50 feet are both
well-formed, and the aggregate totals are exactly their summed lengths. -/
theorem C1_aggregation_soundness_witness :
    pipesTotal (aggregatePipes [mA, mB] mergedStr) =
      (([mA, mB].filter (fun r => specWellFormed r)).map (fun r => r.length_ft.getD 0)).sum :=
  C1_aggregation_soundness.2 [mA, mB] mergedStr (by decide)

attribute [local semireducible] Rat.add Rat.sub Rat.mul Rat.inv Rat.ofScientific in
/-- C3: Diameter ceiling — every aggregated pipe's `diameter_in` is null or at
most 60, and a candidate whose derived diameter is 88 is grouped under the
null-diameter key rather than kept with the spurious value. -/
theorem C3_diameter_ceiling :
    (∀ (runs : List MRun) (src : String), ∀ p ∈ aggregatePipes runs src,
      ∀ d : ℚ, p.diameter_in = some d → d ≤ 60)
    ∧ deriveDiameterRaw r88 = some 88 ∧ aggregatePipes [r88] ocrStr = [pipe88]
    ∧ pipe88.diameter_in = none := by
  refine ⟨?_, by decide, by decide, by decide⟩
  intro runs src p hp d hd
  unfold aggregatePipes at hp
  obtain ⟨kg, hkg, rfl⟩ := List.mem_map.mp hp
  exact buildGroups_bound runs [] (by simp) kg hkg d hd

attribute [local semireducible] Rat.add Rat.sub Rat.mul Rat.inv Rat.ofScientific in
/-- Witness for C3: the 8-inch group produced from `mA` satisfies the
ceiling. -/
theorem C3_diameter_ceiling_witness : (8 : ℚ) ≤ 60 :=
  C3_diameter_ceiling.1 [mA] mergedStr pipeA8 (by decide) 8 (by decide)

/-- C2: Merge conservativeness — whenever two candidates carry non-null,
different materials, neither the cross-DPI dedup condition nor the
cross-source merge condition holds, so neither deduplication step ever
absorbs one into the other, regardless of length proximity. -/
theorem C2_merge_conservativeness :
    (∀ a b : String, a ≠ b → dedupDupCond (some a) (some b) = false)
    ∧ (∀ a b : String, a ≠ b → mergeDupCond (some a) (some b) = false)
    ∧ (∀ (e : OcrRun) (el : ℚ), e.length_ft = some el → ∀ (l : ℚ) (a b : String),
        e.material = some a → a ≠ b → dedupScan l (some b) [e] = none)
    ∧ (∀ (e : MRun) (ml : ℚ), e.length_ft = some ml → ∀ (ol : ℚ) (a b : String),
        e.material = some a → b ≠ a → mergeScan ol (some b) [e] = none) := by
  have hd : ∀ a b : String, a ≠ b → dedupDupCond (some a) (some b) = false := by
    intro a b hab
    simp [dedupDupCond, hab]
  have hm : ∀ a b : String, a ≠ b → mergeDupCond (some a) (some b) = false := by
    intro a b hab
    simp [mergeDupCond, materialsMatch, hab]
  refine ⟨hd, hm, ?_, ?_⟩
  · intro e el hel l a b hmat hab
    have hfalse : ¬(pyAbs (el - l) < 1 ∧ dedupDupCond (some a) (some b) = true) := by
      rw [hd a b hab]
      simp
    simp [dedupScan, hel, hmat, hfalse]
  · intro e ml hml ol a b hmat hab
    have hfalse : ¬(pyAbs (ol - ml) < 2 ∧ mergeDupCond (some b) (some a) = true) := by
      rw [hm b a hab]
      simp
    simp [mergeScan, hml, hmat, hfalse]

/-- Witness for C2: a PVC run of length 100 is not absorbed by a DIP
candidate of length 100.5. -/
theorem C2_merge_conservativeness_witness :
    dedupScan (201 / 2) (some dipStr) [runPvc100] = none :=
  C2_merge_conservativeness.2.2.1 runPvc100 100 rfl (201 / 2) pvcStr dipStr rfl (by decide)

attribute [local semireducible] Rat.add Rat.sub Rat.mul Rat.inv Rat.ofScientific in
/-- C4 counterexample: two OCR candidates whose lengths differ by half a unit
but whose materials are PVC and DIP are not considered the same callout — the
cross-DPI dedup keeps both, so length proximity below 1 unit alone does not
merge candidates. -/
theorem C4_counterexample :
    pyAbs (runPvc100.length_ft.getD 0 - runDipHalf.length_ft.getD 0) < 1
    ∧ ocrDedup [runPvc100, runDipHalf] = [runPvc100, runDipHalf]
    ∧ (ocrDedup [runPvc100, runDipHalf]).length = 2 := by
  decide

attribute [local semireducible] Rat.add Rat.sub Rat.mul Rat.inv Rat.ofScientific in
/-- C4 (amended): across DPI passes two candidates are considered the same
physical callout when their lengths differ by less than 1 unit AND their
materials are compatible (equal, or either null), with a known material
promoted onto a null one; in the cross-source merge an OCR candidate
duplicates an entry when the length difference is below 2 AND materials agree
or either is null, keeping the existing length and promoting a non-null OCR
material onto a null existing one — merging the vector run (150.0, null) with
the OCR run (150.5, PVC) yields one entry with length 150.0 and material
PVC. -/
theorem C4_amended_duplicate_criteria :
    (∀ (e : OcrRun) (el : ℚ), e.length_ft = some el → ∀ (l : ℚ) (mat : Option String),
      (dedupScan l mat [e]).isSome = true ↔
        (pyAbs (el - l) < 1 ∧ dedupDupCond e.material mat = true))
    ∧ (∀ (e : OcrRun) (el : ℚ), e.length_ft = some el → ∀ (l : ℚ) (m : String),
        e.material = none → pyAbs (el - l) < 1 → m ≠ emptyStr →
        dedupScan l (some m) [e] = some [{ e with material := some m }])
    ∧ (∀ (e : MRun) (ml : ℚ), e.length_ft = some ml → ∀ (ol : ℚ) (om : Option String),
        (mergeScan ol om [e]).isSome = true ↔
          (pyAbs (ol - ml) < 2 ∧ mergeDupCond om e.material = true))
    ∧ (∀ (e : MRun) (ml : ℚ), e.length_ft = some ml → ∀ (ol : ℚ) (m : String),
        e.material = none → pyAbs (ol - ml) < 2 → m ≠ emptyStr →
        mergeScan ol (some m) [e] = some [{ e with material := some m }])
    ∧ mergeRuns [vec150] [ocr1505] = [merged150] := by
  refine ⟨?_, ?_, ?_, ?_, ?_⟩
  · intro e el hel l mat
    by_cases hc : pyAbs (el - l) < 1 ∧ dedupDupCond e.material mat = true
    · simp only [dedupScan, hel, if_pos hc]
      constructor
      · intro _
        exact hc
      · intro _
        split <;> simp
    · simp [dedupScan, hel, hc]
  · intro e el hel l m hmat hlt hm
    have hcond : dedupDupCond none (some m) = true := rfl
    have htr : truthyS (some m) = true := by
      simp [truthyS, hm]
    simp [dedupScan, hel, hmat, hlt, hcond, htr]
  · intro e ml hml ol om
    by_cases hc : pyAbs (ol - ml) < 2 ∧ mergeDupCond om e.material = true
    · simp only [mergeScan, hml, if_pos hc]
      constructor
      · intro _
        exact hc
      · intro _
        split <;> simp
    · simp [mergeScan, hml, hc]
  · intro e ml hml ol m hmat hlt hm
    have hcond : mergeDupCond (some m) none = true := rfl
    have htr : truthyS (some m) = true := by
      simp [truthyS, hm]
    simp [mergeScan, hml, hmat, hlt, hcond, htr]
  · decide

attribute [local semireducible] Rat.add Rat.sub Rat.mul Rat.inv Rat.ofScientific in
/-- Witness for the amended C4: PVC is promoted onto a null-material
candidate at length distance 0.2. -/
theorem C4_amended_duplicate_criteria_witness :
    dedupScan 100 (some pvcStr) [runNoMat] = some [runNoMatPromoted] :=
  C4_amended_duplicate_criteria.2.1 runNoMat (501 / 5) rfl 100 pvcStr rfl
    (by decide) (by decide)

attribute [local semireducible] Rat.add Rat.sub Rat.mul Rat.inv Rat.ofScientific in
/-- C5 counterexample: a group whose member runs have a null material is
reported with the substitute string `Unknown`, not with a null material — the
aggregation output substitutes `material or "Unknown"`. -/
theorem C5_counterexample :
    rNullMat.material = none
    ∧ aggregatePipes [rNullMat] ocrStr = [pipeUnknown100]
    ∧ pipeUnknown100.material = unknownStr
    ∧ unknownStr ≠ emptyStr := by
  decide

attribute [local semireducible] Rat.add Rat.sub Rat.mul Rat.inv Rat.ofScientific in
/-- C5 (amended): grouping is by (diameter, material) with null treated as its
own grouping value distinct from every concrete value, and `diameter_in` may
be null in the returned pipes; but `material` in the returned pipes is always
a string — a group whose member runs have no determined material is reported
with the substitute string `Unknown`, not null. -/
theorem C5_amended_null_keys :
    (∀ m1 m2 : MRun, m1.material = none → ∀ s : String, m2.material = some s →
      aggKey m1 ≠ aggKey m2)
    ∧ aggregatePipes [rNullMat, rPvcHalf] ocrStr = [pipeUnknown100, pipePvc50]
    ∧ pipeUnknown100.diameter_in = none
    ∧ pipeUnknown100.material = unknownStr := by
  refine ⟨?_, by decide, by decide, by decide⟩
  intro m1 m2 h1 s h2 hk
  have : m1.material = m2.material := congrArg Prod.snd hk
  rw [h1, h2] at this
  exact Option.noConfusion this

attribute [local semireducible] Rat.add Rat.sub Rat.mul Rat.inv Rat.ofScientific in
/-- Witness for the amended C5: the null-material run and the PVC run land
under distinct grouping keys. -/
theorem C5_amended_null_keys_witness : aggKey rNullMat ≠ aggKey rPvcHalf :=
  C5_amended_null_keys.1 rNullMat rPvcHalf rfl pvcStr rfl

attribute [local semireducible] Rat.add Rat.sub Rat.mul Rat.inv Rat.ofScientific in
/-- C6 counterexample: the OCR line `40 LF IRON` carries a length token but no
diameter token, no material token of the recognizer's vocabulary and none of
the claim's listed DIP cues (no DUCTILE-with-IRON co-occurrence, no SIP, no
D.I.P literal) — yet the OCR extractor produces a candidate for it, with
material DIP, because its cue set also accepts the bare substring IRON. -/
theorem C6_counterexample :
    (ocrLenOf ((ocrNormalize c6Line).data)).isSome = true
    ∧ diaSearch ocrQuotes ((ocrNormalize c6Line).data) = none
    ∧ matSearch ((ocrNormalize c6Line).data) = none
    ∧ claimDipCue ((ocrNormalize c6Line).data) = false
    ∧ (ocrLineToRun c6Line).map OcrRun.material = some (some dipStr) := by
  decide

/-- C6 (amended): a text line with no length token never yields a candidate,
in both the vector and the OCR paths; a line with a length token but neither
a diameter token nor a material detection is rejected — where the vector
path's secondary heuristic accepts DUCTILE with IRON or a D.I.P, D.1.P or SIP
literal, and the OCR path's material detection is the broader cue set
`ocrMatCue` (DIP, D.I.P, D.1.P, DUCTILE, SIP, IRON, DI with PIPE or IRON,
PVC, PNY).  In particular a line with length 40 and no diameter, material or
DIP cues yields no candidate in either path. -/
theorem C6_amended_line_rejection :
    (∀ line : String, containsL lfTok ((ocrNormalize line).data) = false →
      ocrLineToRun line = none)
    ∧ (∀ line : String, ocrLenOf ((ocrNormalize line).data) = none →
        ocrLineToRun line = none)
    ∧ (∀ line : String, diaSearch ocrQuotes ((ocrNormalize line).data) = none →
        ocrMatCue ((ocrNormalize line).data) = none → ocrLineToRun line = none)
    ∧ (∀ s : Span, lengthSearch ((normSpace s.text).data) = none →
        vectorRunFromSpan s = none)
    ∧ (∀ s : Span, diaSearch vecQuotes ((normSpace s.text).data) = none →
        matSearch ((normSpace s.text).data) = none →
        vecDipCue ((upperS (normSpace s.text)).data) = false →
        vectorRunFromSpan s = none)
    ∧ ocrLineToRun fortyLine = none ∧ vectorRunFromSpan span40 = none := by
  refine ⟨?_, ?_, ?_, ?_, ?_, by decide, by decide⟩
  · intro line h
    simp [ocrLineToRun, h]
  · intro line h
    unfold ocrLineToRun
    cases hlf : containsL lfTok ((ocrNormalize line).data) <;> simp [hlf, h]
  · intro line h1 h2
    unfold ocrLineToRun
    cases hlf : containsL lfTok ((ocrNormalize line).data) <;>
      cases hlen : ocrLenOf ((ocrNormalize line).data) <;> simp [hlf, hlen, h1, h2]
  · intro s h
    simp [vectorRunFromSpan, h]
  · intro s h1 h2 h3
    cases hlen : lengthSearch ((normSpace s.text).data) with
    | none => simp [vectorRunFromSpan, hlen]
    | some lm => simp [vectorRunFromSpan, hlen, h1, h2, h3]

/-- Witness for the amended C6: a line without the unit marker yields no
candidate. -/
theorem C6_amended_line_rejection_witness : ocrLineToRun noMarkerLine = none :=
  C6_amended_line_rejection.1 noMarkerLine (by decide)

/-- C7: BM25 recovery gating — the lexical-similarity recovery runs only when
the direct scan found fewer than 3 candidates and more than 5 raw lines were
produced (otherwise the result is exactly the direct-scan candidates); each
query step either leaves the collected runs unchanged or, only when the top
score exceeds the 0.5 threshold, appends the single re-parsed top-scoring
line, and only if no already-collected candidate has a length within 5 units
of it. -/
theorem C7_bm25_gating :
    (∀ (rawLines : List String) (scorer : List String → List ℚ),
      ¬((ocrDirectRuns (normLines rawLines)).length < 3 ∧ 5 < (normLines rawLines).length) →
      ocrStrictFromLines rawLines scorer = ocrDirectRuns (normLines rawLines))
    ∧ (∀ (lines : List String) (scores : List ℚ) (runs : List OcrRun),
        scores.getD (argmaxIdx scores) 0 ≤ 1 / 2 → bmQueryStep lines scores runs = runs)
    ∧ (∀ (lines : List String) (scores : List ℚ) (runs : List OcrRun),
        bmQueryStep lines scores runs = runs ∨
          ((1 : ℚ) / 2 < scores.getD (argmaxIdx scores) 0 ∧
           ∃ run : OcrRun, bmReparse (lines.getD (argmaxIdx scores) emptyStr) = some run ∧
             (∀ r ∈ runs, ¬ pyAbs (r.length_ft.getD 0 - run.length_ft.getD 0) < 5) ∧
             bmQueryStep lines scores runs = runs ++ [run])) := by
  refine ⟨?_, ?_, ?_⟩
  · intro rawLines scorer h
    simp only [ocrStrictFromLines]
    rw [if_neg h]
  · intro lines scores runs h
    simp only [bmQueryStep]
    rw [if_neg (not_lt.mpr h)]
  · intro lines scores runs
    by_cases ht : (1 : ℚ) / 2 < scores.getD (argmaxIdx scores) 0
    · cases hr : bmReparse (lines.getD (argmaxIdx scores) emptyStr) with
      | none =>
        left
        unfold bmQueryStep
        rw [if_pos ht, hr]
      | some run =>
        by_cases hall : ∀ r ∈ runs, ¬ pyAbs (r.length_ft.getD 0 - run.length_ft.getD 0) < 5
        · right
          refine ⟨ht, run, rfl, hall, ?_⟩
          have hall2 : (runs.all fun r =>
              !decide (pyAbs (r.length_ft.getD 0 - run.length_ft.getD 0) < 5)) = true := by
            simp only [List.all_eq_true, Bool.not_eq_true', decide_eq_false_iff_not]
            exact hall
          unfold bmQueryStep
          rw [if_pos ht, hr]
          exact if_pos hall2
        · left
          have hall3 : (runs.all fun r =>
              !decide (pyAbs (r.length_ft.getD 0 - run.length_ft.getD 0) < 5)) = false := by
            rw [Bool.eq_false_iff]
            intro hcon
            apply hall
            simpa only [List.all_eq_true, Bool.not_eq_true', decide_eq_false_iff_not] using hcon
          unfold bmQueryStep
          rw [if_pos ht, hr]
          exact if_neg (by simp [hall3])
    · left
      unfold bmQueryStep
      rw [if_neg ht]

/-- Witness for C7: with no OCR lines the gate is closed and the result is
the (empty) direct scan. -/
theorem C7_bm25_gating_witness :
    ocrStrictFromLines noLines zeroScorer = ocrDirectRuns (normLines noLines) :=
  C7_bm25_gating.1 noLines zeroScorer (by decide)

attribute [local semireducible] Rat.add Rat.sub Rat.mul Rat.inv Rat.ofScientific in
/-- C8: OCR noise repair — applying the repair rewrites to the line
`215Lf 8" DIP` and then running token recognition yields a candidate with
`length_ft = 215`, `diameter_text = 8"` and `material = DIP`; and the
substitution step turns `2l5 LF` into `215 LF`. -/
theorem C8_ocr_repair :
    ocrLineToRun c8Line = some c8Run
    ∧ c8Run.length_ft = some 215
    ∧ c8Run.diameter_text = some (String.mk ['8', '\"'])
    ∧ c8Run.material = some dipStr
    ∧ ocrNormalize c8bLine = repairedStr := by
  decide

attribute [local semireducible] Rat.add Rat.sub Rat.mul Rat.inv Rat.ofScientific in
/-- C9: Error recovery — evaluation of `extract_sewer_pipes`.  A failing DPI
is skipped and later DPIs still contribute; if every DPI fails the OCR stage
contributes an empty list and the result is the valid empty structure; an
unopenable PDF propagates as a hard failure.  But on the vector-only path
(here one vector run and no OCR results) the aggregation receives `VectorRun`
dataclasses and raises `AttributeError`, contradicting the claim that only an
unopenable PDF can raise. -/
theorem C9_error_recovery_eval :
    extractSewerPipes (Except.ok [vec150]) [] 2 = Except.error attrErrStr
    ∧ extractSewerPipes (Except.ok [])
        [Except.error dpiErrStr, Except.error dpiErrStr, Except.error dpiErrStr] 2 =
        Except.ok emptyOutput
    ∧ extractSewerPipes (Except.ok []) [Except.error dpiErrStr, Except.ok [oRun215]] 2 =
        Except.ok (mkOutput [pipe215] [] [oRun215] ocrStr)
    ∧ extractSewerPipes (Except.error pdfErrStr) [] 2 = Except.error pdfErrStr := by
  decide

/-- C10: Broad DIP cue in the OCR extractor — for every OCR line that yields a
length token, the presence of the substring `IRON` anywhere in the repaired
uppercased line, or of `DI` together with `PIPE`, suffices for the candidate's
material to be DIP (taking precedence over the PVC cue), so such a line is
never rejected for lacking a material. -/
theorem C10_broad_dip_cue (line : String)
    (hlf : containsL lfTok ((ocrNormalize line).data) = true)
    (hlen : (ocrLenOf ((ocrNormalize line).data)).isSome = true)
    (hcue : containsL ironTok ((ocrNormalize line).data) = true ∨
      (containsL diTok ((ocrNormalize line).data) = true ∧
       containsL pipeTok ((ocrNormalize line).data) = true)) :
    ∃ run : OcrRun, ocrLineToRun line = some run ∧ run.material = some dipStr := by
  have hmat : ocrMatCue ((ocrNormalize line).data) = some dipStr := by
    unfold ocrMatCue
    rcases hcue with hiron | ⟨hdi, hpipe⟩
    · rw [if_pos]
      simp [hiron]
    · rw [if_pos]
      simp [hdi, hpipe]
  obtain ⟨lm, hlm⟩ := Option.isSome_iff_exists.mp hlen
  simp only [ocrLineToRun, hlf, hlm, hmat, if_true, Option.isSome_some, Bool.or_true]
  exact ⟨_, rfl, rfl⟩

attribute [local semireducible] Rat.add Rat.sub Rat.mul Rat.inv Rat.ofScientific in
/-- Witness for C10: the line `46 LF PVC IRON` yields a candidate whose
material is DIP even though PVC also appears. -/
theorem C10_broad_dip_cue_witness :
    ∃ run : OcrRun, ocrLineToRun c10wLine = some run ∧ run.material = some dipStr :=
  C10_broad_dip_cue c10wLine (by decide) (by decide) (Or.inl (by decide))
